import Mathlib

/-!
Verification of the video sentiment analysis service.

This file gives a shallow embedding of the parts of the repository that the
checked properties concern, and proves those properties.

Modelling conventions:
  - JavaScript numbers are modelled as `ℚ` (all arithmetic in the embedded code
    stays within exactly representable ranges for the claims at issue) and
    array indices as `ℕ`.
  - Each `await`ed external call (S3, FFmpeg, Rekognition, MongoDB) is modelled
    by an `Except String` outcome supplied in an environment record: `.ok` is a
    resolved promise, `.error m` a rejection whose `error.message` is `m`.
  - Database writes are modelled as reliable: a write that the code performs is
    recorded in the result state.  The claims under verification are about the
    control flow of the service, not about store failures.
-/

namespace VideoSentiment

/-- One sentiment classification result, as returned by
`SentimentAnalyzer.analyzeFrame` (`src/server/services/sentimentAnalyzer.js`):
`{timestamp, sentiment, confidence, imageUrl}`. -/
structure SentimentResult where
  timestamp : String
  sentiment : String
  confidence : ℚ
  imageUrl : Option String
deriving DecidableEq, Repr

/-- The digit characters of a string, in order: `timestamp.replace(/[^\d]/g, "")`. -/
def extractDigits (s : String) : List Char :=
  s.data.filter Char.isDigit

/-- Numeric value of a digit string, which is what `parseInt` computes on an
all-digit string. -/
def digitsVal (ds : List Char) : ℕ :=
  ds.foldl (fun a c => 10 * a + (c.toNat - 48)) 0

/-- The seed of the mock generator:
`parseInt(timestamp.replace(/[^\d]/g, "")) || 1`.
`parseInt` of an empty digit string is `NaN` and the number `0` is falsy, so
both cases fall back to `1`; every other digit string gives its numeric value. -/
def mockSeed (ts : String) : ℕ :=
  let n := digitsVal (extractDigits ts)
  if n = 0 then 1 else n

/-- The linear congruential value of `getMockSentiment`:
`((seed * 9301 + 49297) % 233280) / 233280`. -/
def mockRandom (ts : String) : ℚ :=
  (((mockSeed ts * 9301 + 49297) % 233280 : ℕ) : ℚ) / 233280

/-- The label array of `getMockSentiment`. -/
def sentimentLabels : List String :=
  ["happy", "neutral", "sad", "angry", "surprised", "fearful"]

/-- The weight array of `getMockSentiment`: `[0.3, 0.25, 0.15, 0.1, 0.15, 0.05]`. -/
def sentimentWeights : List ℚ :=
  [3/10, 1/4, 3/20, 1/10, 3/20, 1/20]

/-- The cumulative-weight selection loop of `getMockSentiment`: walk the
label/weight pairs accumulating `cumulative += weights[i]` and return the first
label with `random <= cumulative`; if the loop finishes without a break the
initial value `"neutral"` of `selectedSentiment` stands. -/
def pickSentiment (r : ℚ) : List (String × ℚ) → ℚ → String
  | [], _ => "neutral"
  | (s, w) :: rest, cum => if r ≤ cum + w then s else pickSentiment r rest (cum + w)

/-- `SentimentAnalyzer.getMockSentiment(timestamp)`: deterministic mock result
derived from the digits of the timestamp.  The source object has no `imageUrl`
field; `analyzeFrame` spreads the mock result and adds one, which the `none`
here models. -/
def getMockSentiment (ts : String) : SentimentResult :=
  let r := mockRandom ts
  { timestamp := ts
    sentiment := pickSentiment r (sentimentLabels.zip sentimentWeights) 0
    confidence := 7/10 + r * (1/4)
    imageUrl := none }

/-- `String.prototype.padStart(2, "0")`. -/
def padStart2 (s : String) : String :=
  if s.length < 2 then String.mk (List.replicate (2 - s.length) '0') ++ s else s

/-- `SentimentAnalyzer.frameToTimestamp(frameNumber)`:
`minutes = floor(seconds / 60)`, `remainingSeconds = seconds % 60`, rendered as
`00:` plus the two zero-padded components. -/
def frameToTimestamp (n : ℕ) : String :=
  "00:" ++ padStart2 (toString (n / 60)) ++ ":" ++ padStart2 (toString (n % 60))

/-- One entry of the `Emotions` array of a Rekognition `FaceDetails` element:
a `Type` string and a `Confidence` on the 0-100 scale. -/
structure Emotion where
  etype : String
  econf : ℚ
deriving DecidableEq, Repr

/-- `emotions.reduce((prev, current) => prev.Confidence > current.Confidence ? prev : current)`:
JavaScript `reduce` without an initial value starts from the first element. -/
def primaryEmotion (e : Emotion) (rest : List Emotion) : Emotion :=
  rest.foldl (fun prev cur => if cur.econf < prev.econf then prev else cur) e

/-- The `emotionMapping` table of `analyzeFrame`, with the `|| "neutral"`
fallback for unmapped types. -/
def emotionMapping (t : String) : String :=
  if t = "HAPPY" then "happy"
  else if t = "SAD" then "sad"
  else if t = "ANGRY" then "angry"
  else if t = "SURPRISED" then "surprised"
  else if t = "FEAR" then "fearful"
  else if t = "DISGUSTED" then "angry"
  else if t = "CONFUSED" then "neutral"
  else if t = "CALM" then "neutral"
  else "neutral"

/-- `parseFloat(x.toFixed(2))`: round to the nearest hundredth, ties away from
zero, which for the nonnegative inputs at issue is ties-up, the rounding of
Mathlib `round`. -/
def roundTo2 (q : ℚ) : ℚ :=
  ((round (q * 100) : ℤ) : ℚ) / 100

/-- The `imageUrl` obtained by the frame-upload `try` block of `analyzeFrame`:
on success the `url` field of the upload result (which is `null` when S3 is not
configured), on a caught upload error the variable keeps its initial `null`. -/
def uploadUrl : Except String (Option String) → Option String
  | .ok u => u
  | .error _ => none

/-- Outcomes of the external calls one `analyzeFrame` invocation awaits:
the S3 image upload, the `mockMode` flag of the analyzer, and the Rekognition
`detectFaces` call.  A resolved `detectFaces` is modelled directly by the list
`data.FaceDetails[0]?.Emotions || []`. -/
structure FrameEnv where
  uploadRes : Except String (Option String)
  mockMode : Bool
  rekRes : Except String (List Emotion)

/-- `SentimentAnalyzer.analyzeFrame(frameBuffer, frameFilename, videoId, timestamp)`.
The upload `try`/`catch` yields `uploadUrl`; in mock mode, and on a caught
Rekognition error, the mock result is spread and combined with the obtained
`imageUrl`; an empty emotion list yields neutral at confidence `0.1`; otherwise
the highest-confidence emotion is mapped and its confidence rescaled to 0-1 and
rounded to two decimals.  The function is total: no branch re-throws. -/
def analyzeFrame (env : FrameEnv) (ts : String) : SentimentResult :=
  let imageUrl := uploadUrl env.uploadRes
  if env.mockMode then
    { getMockSentiment ts with imageUrl := imageUrl }
  else
    match env.rekRes with
    | .error _ => { getMockSentiment ts with imageUrl := imageUrl }
    | .ok [] =>
      { timestamp := ts, sentiment := "neutral", confidence := 1/10, imageUrl := imageUrl }
    | .ok (e :: rest) =>
      let primary := primaryEmotion e rest
      { timestamp := ts
        sentiment := emotionMapping primary.etype
        confidence := roundTo2 (primary.econf / 100)
        imageUrl := imageUrl }

/-- One extracted frame as consumed by `analyzeBatch`: the relevant datum is
its 1-based index, from which the timestamp is derived. -/
structure Frame where
  index : ℕ
deriving DecidableEq, Repr

/-- Events of the sequential classification loop: the start and the completion
of the classification (including its own image upload) of one frame. -/
inductive BatchEvent
  | callStart (index : ℕ)
  | callEnd (index : ℕ)
deriving DecidableEq, Repr

/-- `SentimentAnalyzer.analyzeBatch(frameData, onProgress)`: a sequential `for`
loop that awaits `analyzeFrame` for each frame in order and pushes its result.
`envOf` supplies each frame's external-call outcomes.  The second component is
the event trace: because each call is awaited inside the loop body, the end
event of frame `i` precedes the start event of frame `i+1`. -/
def analyzeBatch (envOf : Frame → FrameEnv) : List Frame → List SentimentResult × List BatchEvent
  | [] => ([], [])
  | f :: rest =>
    let r := analyzeFrame (envOf f) (frameToTimestamp f.index)
    let (rs, tr) := analyzeBatch envOf rest
    (r :: rs, BatchEvent.callStart f.index :: BatchEvent.callEnd f.index :: tr)

/-! The background pipeline `processVideoAsync(videoId, jobId)` of
`src/server/routes/upload.js`. -/

/-- One `$set` write applied to the job document in `analysis_jobs`. -/
structure JobWrite where
  status : String
  progress : Option ℚ
  errorMsg : Option String
  completedAt : Bool
deriving DecidableEq, Repr

/-- `updateJobStatus(status, progress)` as invoked by `processVideoAsync`: a
non-null progress, no error, and `completed_at` set exactly for the two
terminal statuses. -/
def upd (status : String) (progress : ℚ) : JobWrite :=
  { status := status
    progress := some progress
    errorMsg := none
    completedAt := status == "completed" || status == "failed" }

/-- The `updateOne` of the `catch` block of `processVideoAsync`: it sets
`status: "failed"`, `error_message`, and `completed_at`, and does not touch
`progress`. -/
def failWrite (msg : String) : JobWrite :=
  { status := "failed", progress := none, errorMsg := some msg, completedAt := true }

/-- The pipeline stages of `processVideoAsync`, in source order. -/
inductive Stage
  | lookup | download | compress | upload | extract | classify | insert | cleanup
deriving DecidableEq, Repr

/-- Outcomes of the awaited calls of one `processVideoAsync` run.  Each
`...Pcts` list holds the percentage arguments that the corresponding stage
passed to its progress callback, in invocation order, before the stage resolved
or rejected. -/
structure PipelineEnv where
  videoFound : Bool
  downloadRes : Except String Unit
  compressPcts : List ℚ
  compressRes : Except String Unit
  uploadRes : Except String Unit
  extractPcts : List ℚ
  extractRes : Except String (List Frame)
  classifyPcts : List ℚ
  classifyRes : Except String (List SentimentResult)
  insertRes : Except String Unit

/-- The observable outcome of one `processVideoAsync` run: the job-document
writes in order, the sentiment rows persisted by the bulk `insertMany`, and the
stages that began executing, in order. -/
structure PipeResult where
  writes : List JobWrite
  rows : List SentimentResult
  stagesRun : List Stage
deriving Repr

/-- `processVideoAsync(videoId, jobId)`: look the video up, then sequentially
await S3 download, compression (callback band `20 + p * 0.2`), S3 upload,
frame extraction (band `50 + p * 0.2`), and batch classification (band
`70 + p * 0.25`), interleaved with the fixed `updateJobStatus` calls of the
source; then bulk-insert the sentiment rows if any, clean up, and mark the job
completed at 100.  The first rejection jumps to the `catch` block, which runs
cleanup and applies `failWrite` with the thrown message; no stage is run again. -/
def processVideoAsync (env : PipelineEnv) : PipeResult :=
  if env.videoFound = false then
    { writes := [failWrite "Video not found"]
      rows := []
      stagesRun := [Stage.lookup, Stage.cleanup] }
  else
    let w1 := [upd "processing" 10]
    match env.downloadRes with
    | .error e =>
      { writes := w1 ++ [failWrite e]
        rows := []
        stagesRun := [Stage.lookup, Stage.download, Stage.cleanup] }
    | .ok _ =>
      let w2 := w1 ++ upd "compressing" 20 ::
        env.compressPcts.map (fun p => upd "compressing" (20 + p * (1/5)))
      match env.compressRes with
      | .error e =>
        { writes := w2 ++ [failWrite e]
          rows := []
          stagesRun := [Stage.lookup, Stage.download, Stage.compress, Stage.cleanup] }
      | .ok _ =>
        let w3 := w2 ++ [upd "uploading" 40]
        match env.uploadRes with
        | .error e =>
          { writes := w3 ++ [failWrite e]
            rows := []
            stagesRun := [Stage.lookup, Stage.download, Stage.compress, Stage.upload,
              Stage.cleanup] }
        | .ok _ =>
          let w4 := w3 ++ upd "analyzing" 50 ::
            env.extractPcts.map (fun p => upd "analyzing" (50 + p * (1/5)))
          match env.extractRes with
          | .error e =>
            { writes := w4 ++ [failWrite e]
              rows := []
              stagesRun := [Stage.lookup, Stage.download, Stage.compress, Stage.upload,
                Stage.extract, Stage.cleanup] }
          | .ok _frames =>
            let w5 := w4 ++ upd "analyzing" 70 ::
              env.classifyPcts.map (fun p => upd "analyzing" (70 + p * (1/4)))
            match env.classifyRes with
            | .error e =>
              { writes := w5 ++ [failWrite e]
                rows := []
                stagesRun := [Stage.lookup, Stage.download, Stage.compress, Stage.upload,
                  Stage.extract, Stage.classify, Stage.cleanup] }
            | .ok results =>
              if results.isEmpty then
                { writes := w5 ++ [upd "completed" 100]
                  rows := []
                  stagesRun := [Stage.lookup, Stage.download, Stage.compress, Stage.upload,
                    Stage.extract, Stage.classify, Stage.cleanup] }
              else
                match env.insertRes with
                | .error e =>
                  { writes := w5 ++ [failWrite e]
                    rows := []
                    stagesRun := [Stage.lookup, Stage.download, Stage.compress, Stage.upload,
                      Stage.extract, Stage.classify, Stage.insert, Stage.cleanup] }
                | .ok _ =>
                  { writes := w5 ++ [upd "completed" 100]
                    rows := results
                    stagesRun := [Stage.lookup, Stage.download, Stage.compress, Stage.upload,
                      Stage.extract, Stage.classify, Stage.insert, Stage.cleanup] }

/-- The progress values written over a run, in write order.  The job document
is created with `progress: 0`, so the observable progress sequence of a job is
`0` followed by this list. -/
def progressWrites (env : PipelineEnv) : List ℚ :=
  (processVideoAsync env).writes.filterMap (fun w => w.progress)

/-! The annotation creation handler `router.post("/:videoId")` of
`src/server/routes/annotations.js`. -/

/-- A numeric JSON body field: absent (`undefined`) or a number.  The requests
the claims concern carry JSON numbers or omit the field in these positions. -/
inductive JNum
  | undef
  | num (q : ℚ)
deriving DecidableEq, Repr

/-- JavaScript truthiness of a numeric field: `undefined` and `0` are falsy. -/
def JNum.truthy : JNum → Bool
  | .undef => false
  | .num q => q != 0

/-- The numeric value of a present field; applied only under a truthiness
guard, where the field is a nonzero number, so `parseFloat` is the identity. -/
def JNum.val : JNum → ℚ
  | .undef => 0
  | .num q => q

/-- Truthiness of an optional string field: `undefined` and `""` are falsy. -/
def strTruthy : Option String → Bool
  | none => false
  | some s => s != ""

/-- The video document fields the handler consults. -/
structure Video where
  duration : ℚ
deriving DecidableEq, Repr

/-- The request body of `POST /api/annotations/:videoId`. -/
structure AnnotationBody where
  type : Option String
  label : Option String
  description : Option String
  color : Option String
  timestamp : JNum
  startTimestamp : JNum
  endTimestamp : JNum
deriving DecidableEq, Repr

/-- The annotation document inserted into `manual_annotations` (identity and
date fields omitted). -/
structure AnnotationDoc where
  type : String
  label : String
  description : Option String
  color : String
  timestamp : Option ℚ
  startTimestamp : Option ℚ
  endTimestamp : Option ℚ
deriving DecidableEq, Repr

/-- The handler response: 404, a 400 with its message, a 500 (the outer `catch`
around a `validateTimestamp` throw), or 201 with the inserted document. -/
inductive CreateResponse
  | notFound
  | badRequest (msg : String)
  | serverError (msg : String)
  | created (doc : AnnotationDoc)
deriving DecidableEq, Repr

/-- The documents inserted by a handler invocation: exactly one on the 201
path, none otherwise. -/
def insertedDocs : CreateResponse → List AnnotationDoc
  | .created d => [d]
  | _ => []

/-- The body of `validateTimestamp(ts, name)`: a value outside
`[0, video.duration]` throws (no `NaN` arises for numeric fields). -/
def validTs (video : Video) (q : ℚ) : Bool :=
  decide (0 ≤ q) && decide (q ≤ video.duration)

/-- `description?.trim() || null`. -/
def descField : Option String → Option String
  | none => none
  | some d => if d.trim = "" then none else some d.trim

/-- `color || "#FF6B35"`. -/
def colorField : Option String → String
  | none => "#FF6B35"
  | some c => if c = "" then "#FF6B35" else c

/-- `router.post("/:videoId")` of `annotations.js`: video lookup, required
fields, type check, per-type presence and ordering checks, range validation
(whose throw the outer `catch` turns into a 500), then the insert.  The message
of the type-membership 400 is paraphrased without quote characters; all
messages the claims mention are verbatim. -/
def annotationCreate (video? : Option Video) (b : AnnotationBody) : CreateResponse :=
  match video? with
  | none => .notFound
  | some video =>
    if ¬ strTruthy b.type ∨ ¬ strTruthy b.label then
      .badRequest "Type and label are required fields"
    else if ¬ (b.type = some "moment" ∨ b.type = some "interval") then
      .badRequest "Type must be either moment or interval"
    else
      let tsCheck : Option String :=
        if b.type = some "moment" then
          if ¬ b.timestamp.truthy then
            some "Timestamp is required for moment annotations"
          else if b.startTimestamp.truthy ∨ b.endTimestamp.truthy then
            some "Start and end timestamps should not be provided for moment annotations"
          else none
        else
          if ¬ b.startTimestamp.truthy ∨ ¬ b.endTimestamp.truthy then
            some "Start and end timestamps are required for interval annotations"
          else if b.timestamp.truthy then
            some "Timestamp should not be provided for interval annotations"
          else if b.endTimestamp.val ≤ b.startTimestamp.val then
            some "Start timestamp must be before end timestamp"
          else none
      match tsCheck with
      | some msg => .badRequest msg
      | none =>
        if b.timestamp.truthy ∧ ¬ validTs video b.timestamp.val then
          .serverError "Timestamp must be between 0 and video duration seconds"
        else if b.startTimestamp.truthy ∧ ¬ validTs video b.startTimestamp.val then
          .serverError "Start timestamp must be between 0 and video duration seconds"
        else if b.endTimestamp.truthy ∧ ¬ validTs video b.endTimestamp.val then
          .serverError "End timestamp must be between 0 and video duration seconds"
        else
          .created
            { type := (b.type.getD "")
              label := (b.label.getD "").trim
              description := descField b.description
              color := colorField b.color
              timestamp := if b.type = some "moment" then some b.timestamp.val else none
              startTimestamp := if b.type = some "interval" then some b.startTimestamp.val else none
              endTimestamp := if b.type = some "interval" then some b.endTimestamp.val else none }

/-! The `sentimentStats` computation of `src/src/components/Dashboard.tsx`. -/

/-- A sentiment sample as the dashboard consumes it: label and confidence. -/
abbrev Sample := String × ℚ

/-- The `totalConfidence` accumulated for one label by the `forEach` loop:
the sum of the confidences of the samples carrying that label. -/
def labelTotal (samples : List Sample) (l : String) : ℚ :=
  ((samples.filter (fun s => s.1 == l)).map Prod.snd).sum

/-- The keys of the `stats` record: the distinct sentiment labels occurring in
the samples.  Key order does not affect any computed value. -/
def statsLabels (samples : List Sample) : List String :=
  (samples.map Prod.fst).dedup

/-- The `totalConfidence` reduce of `sentimentStats`: the sum of the per-label
`totalConfidence` fields over all keys of `stats`. -/
def totalConfidence (samples : List Sample) : ℚ :=
  ((statsLabels samples).map (labelTotal samples)).sum

/-- The displayed `percentage` of one label:
`stats[sentiment].totalConfidence / totalConfidence * 100`. -/
def percentage (samples : List Sample) (l : String) : ℚ :=
  labelTotal samples l / totalConfidence samples * 100

/-- A monotone segment of progress values confined to `[lo, hi]`; the shape in
which the progress bands of `processVideoAsync` are assembled. -/
def SegBounded (lo hi : ℚ) (l : List ℚ) : Prop :=
  l.Pairwise (· ≤ ·) ∧ ∀ x ∈ l, lo ≤ x ∧ x ≤ hi

/-! Concrete inputs used by witness and counterexample theorems. -/

def envFailW : PipelineEnv :=
  { videoFound := true
    downloadRes := .ok ()
    compressPcts := [5, 50]
    compressRes := .error "ffmpeg exited with code 1"
    uploadRes := .ok ()
    extractPcts := []
    extractRes := .ok []
    classifyPcts := []
    classifyRes := .ok []
    insertRes := .ok () }

def envOkW : PipelineEnv :=
  { videoFound := true
    downloadRes := .ok ()
    compressPcts := [0, 40, 100]
    compressRes := .ok ()
    uploadRes := .ok ()
    extractPcts := [50, 100]
    extractRes := .ok [{ index := 1 }]
    classifyPcts := [100]
    classifyRes := .ok [{ timestamp := "00:00:01", sentiment := "happy",
                          confidence := 4/5, imageUrl := none }]
    insertRes := .ok () }

def frameEnvFail : FrameEnv :=
  { uploadRes := .ok (some "https://bucket/frame_001.png")
    mockMode := false
    rekRes := .error "Rekognition unavailable" }

def frameEnvLive : FrameEnv :=
  { uploadRes := .ok (some "https://bucket/frame_002.png")
    mockMode := false
    rekRes := .ok [{ etype := "HAPPY", econf := 997/10 }] }

def framesW : List Frame := (List.range 15).map (fun i => { index := i + 1 })

def mockEnvW : Frame → FrameEnv := fun _ =>
  { uploadRes := .ok none, mockMode := true, rekRes := .ok [] }

def samplesW : List Sample := [("happy", 1/2), ("sad", 1/4), ("happy", 1/4)]

def videoW : Video := { duration := 10 }

def bodyIntervalBad : AnnotationBody :=
  { type := some "interval", label := some "x", description := none, color := none,
    timestamp := JNum.undef, startTimestamp := JNum.num 5, endTimestamp := JNum.num 3 }

def bodyMomentMissing : AnnotationBody :=
  { type := some "moment", label := some "x", description := none, color := none,
    timestamp := JNum.undef, startTimestamp := JNum.undef, endTimestamp := JNum.undef }

/-- The three 400 messages of the presence checks. -/
def requiredFieldMsgs : List String :=
  ["Type and label are required fields",
   "Timestamp is required for moment annotations",
   "Start and end timestamps are required for interval annotations"]

def bodyMomentZero : AnnotationBody :=
  { type := some "moment", label := some "x", description := none, color := none,
    timestamp := JNum.num 0, startTimestamp := JNum.undef, endTimestamp := JNum.undef }

def bodyIntervalZero : AnnotationBody :=
  { type := some "interval", label := some "x", description := none, color := none,
    timestamp := JNum.undef, startTimestamp := JNum.num 0, endTimestamp := JNum.num 5 }

/-! Helper lemmas. -/

/-- Every branch of `analyzeFrame` carries the input timestamp through. -/
theorem analyzeFrame_timestamp (env : FrameEnv) (ts : String) :
    (analyzeFrame env ts).timestamp = ts := by
  rcases env with ⟨u, m, r⟩
  rcases m with _ | _ <;> rcases r with e | l
  · simp [analyzeFrame, getMockSentiment]
  · rcases l with _ | ⟨e, rest⟩ <;> simp [analyzeFrame]
  · simp [analyzeFrame, getMockSentiment]
  · simp [analyzeFrame, getMockSentiment]

/-- Unconditional shape of `analyzeBatch`: timestamps follow the frame list,
lengths agree, and the event trace is the in-order concatenation of each
frame's start/end bracket. -/
theorem analyzeBatch_shape (envOf : Frame → FrameEnv) (frames : List Frame) :
    (analyzeBatch envOf frames).1.map (fun r => r.timestamp)
        = frames.map (fun f => frameToTimestamp f.index) ∧
    (analyzeBatch envOf frames).1.length = frames.length ∧
    (analyzeBatch envOf frames).2
        = (frames.map (fun f => [BatchEvent.callStart f.index, BatchEvent.callEnd f.index])).flatten := by
  induction frames with
  | nil => exact ⟨rfl, rfl, rfl⟩
  | cons f rest ih =>
    refine ⟨?_, ?_, ?_⟩
    · simpa [analyzeBatch, analyzeFrame_timestamp] using ih.1
    · simpa [analyzeBatch] using ih.2.1
    · simpa [analyzeBatch] using ih.2.2

/-! Claim theorems. -/

/-- C4: for every 1-based frame index `N`, `frameToTimestamp N` is the string
`00:MM:SS` where `MM` is `⌊N / 60⌋` and `SS` is `N % 60`, each zero-padded to
two digits, and the total seconds `60 * MM + SS` equal `N`. -/
theorem frameToTimestamp_spec (N : ℕ) (h : 1 ≤ N) :
    frameToTimestamp N =
      "00:" ++ padStart2 (toString (N / 60)) ++ ":" ++ padStart2 (toString (N % 60)) ∧
    60 * (N / 60) + N % 60 = N :=
  ⟨rfl, Nat.div_add_mod N 60⟩

theorem frameToTimestamp_spec_witness :
    1 ≤ 75 ∧
    (frameToTimestamp 75 =
      "00:" ++ padStart2 (toString (75 / 60)) ++ ":" ++ padStart2 (toString (75 % 60)) ∧
    60 * (75 / 60) + 75 % 60 = 75) :=
  ⟨by decide, frameToTimestamp_spec 75 (by decide)⟩

/-- C5: the mock sentiment is a pure function of the digit characters of the
timestamp string: two timestamps with the same digit sequence receive the same
label and the same confidence (and, the embedding being a function, repeated
calls at a fixed timestamp are identical). -/
theorem getMockSentiment_digit_pure (t1 t2 : String)
    (h : extractDigits t1 = extractDigits t2) :
    (getMockSentiment t1).sentiment = (getMockSentiment t2).sentiment ∧
    (getMockSentiment t1).confidence = (getMockSentiment t2).confidence := by
  have hs : mockSeed t1 = mockSeed t2 := by unfold mockSeed; rw [h]
  have hr : mockRandom t1 = mockRandom t2 := by unfold mockRandom; rw [hs]
  exact ⟨by simp [getMockSentiment, hr], by simp [getMockSentiment, hr]⟩

theorem getMockSentiment_digit_pure_witness :
    extractDigits "00:00:05" = extractDigits "00-00-05" ∧
    ((getMockSentiment "00:00:05").sentiment = (getMockSentiment "00-00-05").sentiment ∧
     (getMockSentiment "00:00:05").confidence = (getMockSentiment "00-00-05").confidence) :=
  ⟨by decide, getMockSentiment_digit_pure "00:00:05" "00-00-05" (by decide)⟩

/-- C7: when the analyzer is not in mock mode and the Rekognition call rejects,
`analyzeFrame` returns the mock generator's result for the timestamp combined
with whatever `imageUrl` the upload step obtained; the error is not propagated
(the embedding of `analyzeFrame` is total, mirroring the `catch` that ends the
function body). -/
theorem analyzeFrame_fallback (env : FrameEnv) (ts msg : String)
    (hm : env.mockMode = false) (hr : env.rekRes = .error msg) :
    analyzeFrame env ts = { getMockSentiment ts with imageUrl := uploadUrl env.uploadRes } := by
  simp [analyzeFrame, hm, hr]

theorem analyzeFrame_fallback_witness :
    frameEnvFail.mockMode = false ∧
    frameEnvFail.rekRes = .error "Rekognition unavailable" ∧
    analyzeFrame frameEnvFail "00:00:03"
      = { getMockSentiment "00:00:03" with imageUrl := uploadUrl frameEnvFail.uploadRes } :=
  ⟨rfl, rfl, analyzeFrame_fallback frameEnvFail "00:00:03" "Rekognition unavailable" rfl rfl⟩

/-- The linear congruential value lies in `[0, 1)`. -/
theorem mockRandom_bounds (ts : String) : 0 ≤ mockRandom ts ∧ mockRandom ts ≤ 1 := by
  unfold mockRandom
  constructor
  · positivity
  · rw [div_le_one (by norm_num)]
    have h := Nat.mod_lt (mockSeed ts * 9301 + 49297) (y := 233280) (by norm_num)
    exact_mod_cast h.le

/-- Rounding is monotone for Mathlib `round` over `ℚ`. -/
theorem round_le_round_q {a b : ℚ} (h : a ≤ b) : round a ≤ round b := by
  rw [round_eq, round_eq]
  exact Int.floor_le_floor (by linarith)

/-- C6: the mock confidence `0.70 + 0.25 * random` always lies in
`[0.70, 0.95]`, and the provider-mapped confidence (the primary emotion's
`Confidence / 100` rounded to two decimals) lies in `[0, 1]` whenever the
primary emotion's `Confidence` lies in `[0, 100]`. -/
theorem confidence_bounds :
    (∀ ts : String,
      7/10 ≤ (getMockSentiment ts).confidence ∧ (getMockSentiment ts).confidence ≤ 19/20) ∧
    (∀ (env : FrameEnv) (ts : String) (e : Emotion) (rest : List Emotion),
      env.mockMode = false → env.rekRes = .ok (e :: rest) →
      0 ≤ (primaryEmotion e rest).econf → (primaryEmotion e rest).econf ≤ 100 →
      0 ≤ (analyzeFrame env ts).confidence ∧ (analyzeFrame env ts).confidence ≤ 1) := by
  constructor
  · intro ts
    obtain ⟨h0, h1⟩ := mockRandom_bounds ts
    have hc : (getMockSentiment ts).confidence = 7/10 + mockRandom ts * (1/4) := rfl
    rw [hc]
    constructor <;> linarith
  · intro env ts e rest hm hr h0 h100
    have hc : (analyzeFrame env ts).confidence = roundTo2 ((primaryEmotion e rest).econf / 100) := by
      simp [analyzeFrame, hm, hr]
    rw [hc]
    unfold roundTo2
    have harg : (primaryEmotion e rest).econf / 100 * 100 = (primaryEmotion e rest).econf := by
      field_simp
    rw [harg]
    have hlo : (0 : ℤ) ≤ round (primaryEmotion e rest).econf := by
      have := round_le_round_q h0
      simpa using this
    have hhi : round (primaryEmotion e rest).econf ≤ (100 : ℤ) := by
      have := round_le_round_q h100
      simpa using this
    constructor
    · positivity
    · rw [div_le_one (by norm_num)]
      exact_mod_cast hhi

theorem confidence_bounds_witness :
    (7/10 ≤ (getMockSentiment "00:00:15").confidence ∧
      (getMockSentiment "00:00:15").confidence ≤ 19/20) ∧
    (frameEnvLive.mockMode = false ∧
      frameEnvLive.rekRes = .ok [{ etype := "HAPPY", econf := 997/10 }] ∧
      0 ≤ (primaryEmotion { etype := "HAPPY", econf := 997/10 } []).econf ∧
      (primaryEmotion { etype := "HAPPY", econf := 997/10 } []).econf ≤ 100 ∧
      (0 ≤ (analyzeFrame frameEnvLive "00:00:15").confidence ∧
        (analyzeFrame frameEnvLive "00:00:15").confidence ≤ 1)) :=
  ⟨confidence_bounds.1 "00:00:15",
   rfl, rfl, by norm_num [primaryEmotion], by norm_num [primaryEmotion],
   confidence_bounds.2 frameEnvLive "00:00:15" { etype := "HAPPY", econf := 997/10 } []
     rfl rfl (by norm_num [primaryEmotion]) (by norm_num [primaryEmotion])⟩

/-- C3: on a list of `n` frames indexed `1..n`, `analyzeBatch` returns exactly
`n` results in frame order, the `i`-th (0-based `i`) carrying timestamp
`frameToTimestamp (i + 1)`; and the event trace is the concatenation of each
frame's own start/end bracket in order, so each frame's classification
completes before the next begins. -/
theorem analyzeBatch_frame_order (envOf : Frame → FrameEnv) (frames : List Frame)
    (h : ∀ i (hi : i < frames.length), (frames.get ⟨i, hi⟩).index = i + 1) :
    (analyzeBatch envOf frames).1.length = frames.length ∧
    (∀ i (hi : i < (analyzeBatch envOf frames).1.length),
      ((analyzeBatch envOf frames).1.get ⟨i, hi⟩).timestamp = frameToTimestamp (i + 1)) ∧
    (analyzeBatch envOf frames).2
        = (frames.map (fun f => [BatchEvent.callStart f.index, BatchEvent.callEnd f.index])).flatten := by
  obtain ⟨hmap, hlen, htr⟩ := analyzeBatch_shape envOf frames
  refine ⟨hlen, ?_, htr⟩
  intro i hi
  have hi' : i < frames.length := hlen ▸ hi
  have h1 : ((analyzeBatch envOf frames).1.map (fun r => r.timestamp)).get
      ⟨i, by simpa using hi⟩
      = (frames.map (fun f => frameToTimestamp f.index)).get ⟨i, by simpa using hi'⟩ :=
    List.get_of_eq hmap _
  rw [List.get_map, List.get_map] at h1
  rw [h1, h i hi']

theorem analyzeBatch_frame_order_witness :
    (∀ i (hi : i < framesW.length), (framesW.get ⟨i, hi⟩).index = i + 1) ∧
    ((analyzeBatch mockEnvW framesW).1.length = framesW.length ∧
      (∀ i (hi : i < (analyzeBatch mockEnvW framesW).1.length),
        ((analyzeBatch mockEnvW framesW).1.get ⟨i, hi⟩).timestamp = frameToTimestamp (i + 1)) ∧
      (analyzeBatch mockEnvW framesW).2
        = (framesW.map
            (fun f => [BatchEvent.callStart f.index, BatchEvent.callEnd f.index])).flatten) ∧
    (analyzeBatch mockEnvW framesW).1.map (fun r => r.timestamp)
      = ["00:00:01", "00:00:02", "00:00:03", "00:00:04", "00:00:05",
         "00:00:06", "00:00:07", "00:00:08", "00:00:09", "00:00:10",
         "00:00:11", "00:00:12", "00:00:13", "00:00:14", "00:00:15"] :=
  ⟨by decide, analyzeBatch_frame_order mockEnvW framesW (by decide), by decide⟩

/-! Lemmas for the dashboard percentage computation. -/

theorem sum_map_add {α : Type} (l : List α) (f g : α → ℚ) :
    (l.map fun x => f x + g x).sum = (l.map f).sum + (l.map g).sum := by
  induction l with
  | nil => simp
  | cons x xs ih => simp [ih]; ring

theorem sum_map_mul_const {α : Type} (l : List α) (f : α → ℚ) (c : ℚ) :
    (l.map fun x => f x * c).sum = (l.map f).sum * c := by
  induction l with
  | nil => simp
  | cons x xs ih => simp [ih, add_mul]

theorem sum_map_ite_eq (x : String) (v : ℚ) (ls : List String)
    (hnd : ls.Nodup) (hx : x ∈ ls) :
    (ls.map fun l => if x = l then v else 0).sum = v := by
  induction ls with
  | nil => cases hx
  | cons a as ih =>
    rcases List.mem_cons.mp hx with rfl | hmem
    · have hnotin : x ∉ as := (List.nodup_cons.mp hnd).1
      have hz : (as.map fun l => if x = l then v else 0).sum = 0 := by
        apply List.sum_eq_zero
        intro z hz
        rcases List.mem_map.mp hz with ⟨l, hl, rfl⟩
        have : x ≠ l := fun hxl => hnotin (hxl ▸ hl)
        simp [this]
      simp [hz]
    · have hne : x ≠ a := fun hxa => (List.nodup_cons.mp hnd).1 (hxa ▸ hmem)
      simp [hne, ih (List.nodup_cons.mp hnd).2 hmem]

theorem labelTotal_cons (x : Sample) (xs : List Sample) (l : String) :
    labelTotal (x :: xs) l = (if x.1 = l then x.2 else 0) + labelTotal xs l := by
  by_cases h : x.1 = l <;> simp [labelTotal, List.filter_cons, h]

/-- Summing the per-label totals over any duplicate-free list of labels that
covers the samples gives the total of all confidences. -/
theorem sum_labelTotal (xs : List Sample) (ls : List String)
    (hnd : ls.Nodup) (hall : ∀ s ∈ xs, s.1 ∈ ls) :
    (ls.map (labelTotal xs)).sum = (xs.map Prod.snd).sum := by
  induction xs with
  | nil =>
    simp only [List.map_nil, List.sum_nil]
    apply List.sum_eq_zero
    intro z hz
    rcases List.mem_map.mp hz with ⟨l, _, rfl⟩
    simp [labelTotal]
  | cons x xs ih =>
    have h1 : ls.map (labelTotal (x :: xs))
        = ls.map (fun l => (if x.1 = l then x.2 else 0) + labelTotal xs l) := by
      simp [labelTotal_cons]
    rw [h1, sum_map_add, sum_map_ite_eq x.1 x.2 ls hnd (hall x (by simp)),
      ih (fun s hs => hall s (by simp [hs]))]
    simp

/-- The `totalConfidence` reduce over the `stats` record equals the sum of all
samples' confidences. -/
theorem totalConfidence_eq (samples : List Sample) :
    totalConfidence samples = (samples.map Prod.snd).sum :=
  sum_labelTotal samples _ (List.nodup_dedup _)
    (fun s hs => List.mem_dedup.mpr (List.mem_map_of_mem _ hs))

/-- C9: with positive total confidence, each label's displayed percentage is
100 times that label's confidence sum divided by the sum of all samples'
confidences (normalization by confidence mass, not sample count), and the
percentages over the present labels sum to 100. -/
theorem sentimentStats_percentages (samples : List Sample)
    (hpos : 0 < (samples.map Prod.snd).sum) :
    (∀ l ∈ statsLabels samples,
      percentage samples l = 100 * labelTotal samples l / (samples.map Prod.snd).sum) ∧
    ((statsLabels samples).map (percentage samples)).sum = 100 := by
  have ht := totalConfidence_eq samples
  have hne : totalConfidence samples ≠ 0 := by rw [ht]; exact ne_of_gt hpos
  constructor
  · intro l _
    unfold percentage
    rw [ht]
    ring
  · have hfun : percentage samples
        = fun l => labelTotal samples l * (100 / totalConfidence samples) := by
      funext l
      unfold percentage
      ring
    rw [hfun, sum_map_mul_const]
    have hsum : ((statsLabels samples).map (labelTotal samples)).sum
        = totalConfidence samples := rfl
    rw [hsum]
    field_simp

theorem sentimentStats_percentages_witness :
    0 < (samplesW.map Prod.snd).sum ∧
    ((∀ l ∈ statsLabels samplesW,
      percentage samplesW l = 100 * labelTotal samplesW l / (samplesW.map Prod.snd).sum) ∧
    ((statsLabels samplesW).map (percentage samplesW)).sum = 100) :=
  ⟨by norm_num [samplesW], sentimentStats_percentages samplesW (by norm_num [samplesW])⟩

/-! Annotation creation claims. -/

/-- C8 counterexample: an interval request with both timestamps present and
start at or after end, but with no label, is answered with the required-fields
message, not the ordering message the claim states for every such request. -/
theorem createAnnotation_interval_cex :
    annotationCreate (some videoW)
      { type := some "interval", label := none, description := none, color := none,
        timestamp := JNum.undef, startTimestamp := JNum.num 5, endTimestamp := JNum.num 3 }
      = CreateResponse.badRequest "Type and label are required fields" ∧
    "Type and label are required fields" ≠ "Start timestamp must be before end timestamp" :=
  ⟨by rfl, by decide⟩

/-- C8 (amended): on an existing video, an interval request that passes the
earlier checks (label present, no moment timestamp, both interval timestamps
present) with `parseFloat(start) ≥ parseFloat(end)` is answered 400 with
exactly the ordering message and inserts nothing; and a moment request lacking
a timestamp is answered 400 (with one of the earlier messages when the label is
also missing) and inserts nothing. -/
theorem createAnnotation_validation (video : Video) (b : AnnotationBody) :
    (b.type = some "interval" → strTruthy b.label = true →
      b.timestamp.truthy = false →
      b.startTimestamp.truthy = true → b.endTimestamp.truthy = true →
      b.endTimestamp.val ≤ b.startTimestamp.val →
      annotationCreate (some video) b
        = CreateResponse.badRequest "Start timestamp must be before end timestamp" ∧
      insertedDocs (annotationCreate (some video) b) = []) ∧
    (b.type = some "moment" → b.timestamp.truthy = false →
      (∃ msg, annotationCreate (some video) b = CreateResponse.badRequest msg) ∧
      insertedDocs (annotationCreate (some video) b) = []) := by
  constructor
  · intro ht hl hts hs he hord
    have hresp : annotationCreate (some video) b
        = CreateResponse.badRequest "Start timestamp must be before end timestamp" := by
      simp [annotationCreate, ht, hl, hts, hs, he, hord]; rfl
    exact ⟨hresp, by rw [hresp]; rfl⟩
  · intro ht hts
    by_cases hl : strTruthy b.label = true
    · have hresp : annotationCreate (some video) b
          = CreateResponse.badRequest "Timestamp is required for moment annotations" := by
        simp [annotationCreate, ht, hl, hts]; rfl
      exact ⟨⟨_, hresp⟩, by rw [hresp]; rfl⟩
    · have hl' : strTruthy b.label = false := by simpa using hl
      have hresp : annotationCreate (some video) b
          = CreateResponse.badRequest "Type and label are required fields" := by
        simp [annotationCreate, hl']
      exact ⟨⟨_, hresp⟩, by rw [hresp]; rfl⟩

theorem createAnnotation_validation_witness :
    (bodyIntervalBad.endTimestamp.val ≤ bodyIntervalBad.startTimestamp.val) ∧
    (annotationCreate (some videoW) bodyIntervalBad
        = CreateResponse.badRequest "Start timestamp must be before end timestamp" ∧
      insertedDocs (annotationCreate (some videoW) bodyIntervalBad) = []) ∧
    ((∃ msg, annotationCreate (some videoW) bodyMomentMissing
        = CreateResponse.badRequest msg) ∧
      insertedDocs (annotationCreate (some videoW) bodyMomentMissing) = []) :=
  ⟨by norm_num [bodyIntervalBad, JNum.val],
   (createAnnotation_validation videoW bodyIntervalBad).1 rfl rfl rfl rfl rfl
     (by norm_num [bodyIntervalBad, JNum.val]),
   (createAnnotation_validation videoW bodyMomentMissing).2 rfl rfl⟩

/-- C10: because presence is tested by truthiness, a moment request whose
timestamp is the number 0, and an interval request whose start timestamp is 0,
are answered 400 with a required-field message and insert nothing, even though
the value 0 passes the subsequent range validation whenever the video duration
is nonnegative. -/
theorem createAnnotation_zero_anchor (video : Video) (b : AnnotationBody)
    (hdur : 0 ≤ video.duration) :
    (b.type = some "moment" → b.timestamp = JNum.num 0 →
      (∃ msg ∈ requiredFieldMsgs,
        annotationCreate (some video) b = CreateResponse.badRequest msg) ∧
      insertedDocs (annotationCreate (some video) b) = []) ∧
    (b.type = some "interval" → b.startTimestamp = JNum.num 0 →
      (∃ msg ∈ requiredFieldMsgs,
        annotationCreate (some video) b = CreateResponse.badRequest msg) ∧
      insertedDocs (annotationCreate (some video) b) = []) ∧
    validTs video 0 = true := by
  refine ⟨?_, ?_, ?_⟩
  · intro ht hts
    have hts' : b.timestamp.truthy = false := by rw [hts]; rfl
    by_cases hl : strTruthy b.label = true
    · have hresp : annotationCreate (some video) b
          = CreateResponse.badRequest "Timestamp is required for moment annotations" := by
        simp [annotationCreate, ht, hl, hts']; rfl
      exact ⟨⟨_, by simp [requiredFieldMsgs], hresp⟩, by rw [hresp]; rfl⟩
    · have hl' : strTruthy b.label = false := by simpa using hl
      have hresp : annotationCreate (some video) b
          = CreateResponse.badRequest "Type and label are required fields" := by
        simp [annotationCreate, hl']
      exact ⟨⟨_, by simp [requiredFieldMsgs], hresp⟩, by rw [hresp]; rfl⟩
  · intro ht hst
    have hst' : b.startTimestamp.truthy = false := by rw [hst]; rfl
    by_cases hl : strTruthy b.label = true
    · have hresp : annotationCreate (some video) b
          = CreateResponse.badRequest "Start and end timestamps are required for interval annotations" := by
        simp [annotationCreate, ht, hl, hst']; rfl
      exact ⟨⟨_, by simp [requiredFieldMsgs], hresp⟩, by rw [hresp]; rfl⟩
    · have hl' : strTruthy b.label = false := by simpa using hl
      have hresp : annotationCreate (some video) b
          = CreateResponse.badRequest "Type and label are required fields" := by
        simp [annotationCreate, hl']
      exact ⟨⟨_, by simp [requiredFieldMsgs], hresp⟩, by rw [hresp]; rfl⟩
  · simp [validTs, hdur]

theorem createAnnotation_zero_anchor_witness :
    0 ≤ videoW.duration ∧
    ((∃ msg ∈ requiredFieldMsgs,
        annotationCreate (some videoW) bodyMomentZero = CreateResponse.badRequest msg) ∧
      insertedDocs (annotationCreate (some videoW) bodyMomentZero) = []) ∧
    ((∃ msg ∈ requiredFieldMsgs,
        annotationCreate (some videoW) bodyIntervalZero = CreateResponse.badRequest msg) ∧
      insertedDocs (annotationCreate (some videoW) bodyIntervalZero) = []) ∧
    validTs videoW 0 = true :=
  ⟨by norm_num [videoW],
   (createAnnotation_zero_anchor videoW bodyMomentZero (by norm_num [videoW])).1 rfl rfl,
   ((createAnnotation_zero_anchor videoW bodyIntervalZero (by norm_num [videoW])).2).1 rfl rfl,
   ((createAnnotation_zero_anchor videoW bodyMomentZero (by norm_num [videoW])).2).2⟩

/-! Pipeline failure policy. -/

theorem getLast?_snoc {α : Type} (l : List α) (a : α) : (l ++ [a]).getLast? = some a := by
  rw [List.getLast?_append_cons]
  rfl

/-- C1: if any stage before the bulk sentiment insert throws — video lookup,
S3 download, compression, upload, frame extraction, or classification — then
no sentiment rows are persisted, the final job write is the failed update
carrying the thrown message and a completion timestamp, the insert stage never
begins, and no stage runs more than once. -/
theorem processVideoAsync_failure (env : PipelineEnv) (m : String)
    (h : (env.videoFound = false ∧ m = "Video not found")
      ∨ (env.videoFound = true ∧ env.downloadRes = Except.error m)
      ∨ (env.videoFound = true ∧ env.downloadRes = Except.ok ()
          ∧ env.compressRes = Except.error m)
      ∨ (env.videoFound = true ∧ env.downloadRes = Except.ok ()
          ∧ env.compressRes = Except.ok () ∧ env.uploadRes = Except.error m)
      ∨ (env.videoFound = true ∧ env.downloadRes = Except.ok ()
          ∧ env.compressRes = Except.ok () ∧ env.uploadRes = Except.ok ()
          ∧ env.extractRes = Except.error m)
      ∨ (env.videoFound = true ∧ env.downloadRes = Except.ok ()
          ∧ env.compressRes = Except.ok () ∧ env.uploadRes = Except.ok ()
          ∧ (∃ fs, env.extractRes = Except.ok fs)
          ∧ env.classifyRes = Except.error m)) :
    (processVideoAsync env).rows = [] ∧
    (processVideoAsync env).writes.getLast? = some (failWrite m) ∧
    Stage.insert ∉ (processVideoAsync env).stagesRun ∧
    (processVideoAsync env).stagesRun.Nodup := by
  rcases h with ⟨h1, rfl⟩ | ⟨h1, h2⟩ | ⟨h1, h2, h3⟩ | ⟨h1, h2, h3, h4⟩
    | ⟨h1, h2, h3, h4, h5⟩ | ⟨h1, h2, h3, h4, ⟨fs, h5⟩, h6⟩
  · have hw : (processVideoAsync env).writes = [] ++ [failWrite "Video not found"] := by
      simp [processVideoAsync, h1]
    have hs : (processVideoAsync env).stagesRun = [Stage.lookup, Stage.cleanup] := by
      simp [processVideoAsync, h1]
    exact ⟨by simp [processVideoAsync, h1], by rw [hw]; exact getLast?_snoc _ _,
      by rw [hs]; decide, by rw [hs]; decide⟩
  · have hw : (processVideoAsync env).writes = [upd "processing" 10] ++ [failWrite m] := by
      simp [processVideoAsync, h1, h2]
    have hs : (processVideoAsync env).stagesRun
        = [Stage.lookup, Stage.download, Stage.cleanup] := by
      simp [processVideoAsync, h1, h2]
    exact ⟨by simp [processVideoAsync, h1, h2], by rw [hw]; exact getLast?_snoc _ _,
      by rw [hs]; decide, by rw [hs]; decide⟩
  · have hw : (processVideoAsync env).writes
        = ([upd "processing" 10, upd "compressing" 20]
            ++ env.compressPcts.map (fun p => upd "compressing" (20 + p * (1/5))))
          ++ [failWrite m] := by
      simp [processVideoAsync, h1, h2, h3]
    have hs : (processVideoAsync env).stagesRun
        = [Stage.lookup, Stage.download, Stage.compress, Stage.cleanup] := by
      simp [processVideoAsync, h1, h2, h3]
    exact ⟨by simp [processVideoAsync, h1, h2, h3], by rw [hw]; exact getLast?_snoc _ _,
      by rw [hs]; decide, by rw [hs]; decide⟩
  · have hw : (processVideoAsync env).writes
        = ([upd "processing" 10, upd "compressing" 20]
            ++ env.compressPcts.map (fun p => upd "compressing" (20 + p * (1/5)))
            ++ [upd "uploading" 40])
          ++ [failWrite m] := by
      simp [processVideoAsync, h1, h2, h3, h4]
    have hs : (processVideoAsync env).stagesRun
        = [Stage.lookup, Stage.download, Stage.compress, Stage.upload, Stage.cleanup] := by
      simp [processVideoAsync, h1, h2, h3, h4]
    exact ⟨by simp [processVideoAsync, h1, h2, h3, h4], by rw [hw]; exact getLast?_snoc _ _,
      by rw [hs]; decide, by rw [hs]; decide⟩
  · have hw : (processVideoAsync env).writes
        = ([upd "processing" 10, upd "compressing" 20]
            ++ env.compressPcts.map (fun p => upd "compressing" (20 + p * (1/5)))
            ++ [upd "uploading" 40, upd "analyzing" 50]
            ++ env.extractPcts.map (fun p => upd "analyzing" (50 + p * (1/5))))
          ++ [failWrite m] := by
      simp [processVideoAsync, h1, h2, h3, h4, h5]
    have hs : (processVideoAsync env).stagesRun
        = [Stage.lookup, Stage.download, Stage.compress, Stage.upload, Stage.extract,
           Stage.cleanup] := by
      simp [processVideoAsync, h1, h2, h3, h4, h5]
    exact ⟨by simp [processVideoAsync, h1, h2, h3, h4, h5], by rw [hw]; exact getLast?_snoc _ _,
      by rw [hs]; decide, by rw [hs]; decide⟩
  · have hw : (processVideoAsync env).writes
        = ([upd "processing" 10, upd "compressing" 20]
            ++ env.compressPcts.map (fun p => upd "compressing" (20 + p * (1/5)))
            ++ [upd "uploading" 40, upd "analyzing" 50]
            ++ env.extractPcts.map (fun p => upd "analyzing" (50 + p * (1/5)))
            ++ [upd "analyzing" 70]
            ++ env.classifyPcts.map (fun p => upd "analyzing" (70 + p * (1/4))))
          ++ [failWrite m] := by
      simp [processVideoAsync, h1, h2, h3, h4, h5, h6]
    have hs : (processVideoAsync env).stagesRun
        = [Stage.lookup, Stage.download, Stage.compress, Stage.upload, Stage.extract,
           Stage.classify, Stage.cleanup] := by
      simp [processVideoAsync, h1, h2, h3, h4, h5, h6]
    exact ⟨by simp [processVideoAsync, h1, h2, h3, h4, h5, h6],
      by rw [hw]; exact getLast?_snoc _ _, by rw [hs]; decide, by rw [hs]; decide⟩

theorem processVideoAsync_failure_witness :
    (envFailW.videoFound = true ∧ envFailW.downloadRes = Except.ok ()
      ∧ envFailW.compressRes = Except.error "ffmpeg exited with code 1") ∧
    ((processVideoAsync envFailW).rows = [] ∧
      (processVideoAsync envFailW).writes.getLast?
        = some (failWrite "ffmpeg exited with code 1") ∧
      Stage.insert ∉ (processVideoAsync envFailW).stagesRun ∧
      (processVideoAsync envFailW).stagesRun.Nodup) :=
  ⟨⟨rfl, rfl, rfl⟩,
   processVideoAsync_failure envFailW "ffmpeg exited with code 1"
     (Or.inr (Or.inr (Or.inl ⟨rfl, rfl, rfl⟩)))⟩

/-! Progress monotonicity machinery. -/

theorem progress_upd (s : String) (q : ℚ) : (upd s q).progress = some q := rfl

theorem progress_failWrite (m : String) : (failWrite m).progress = none := rfl

theorem filterMap_progress (s : String) (f : ℚ → ℚ) (l : List ℚ) :
    l.filterMap ((fun w => w.progress) ∘ fun p => upd s (f p)) = l.map f := by
  induction l with
  | nil => rfl
  | cons x xs ih =>
    simp only [List.filterMap_cons, Function.comp_apply, progress_upd, List.map_cons, ih]

theorem segBounded_single {lo hi x : ℚ} (h1 : lo ≤ x) (h2 : x ≤ hi) : SegBounded lo hi [x] :=
  ⟨List.pairwise_singleton _ _,
   fun y hy => by rcases List.mem_singleton.mp hy with rfl; exact ⟨h1, h2⟩⟩

theorem SegBounded.append {lo mid hi : ℚ} {l₁ l₂ : List ℚ}
    (h₁ : SegBounded lo mid l₁) (h₂ : SegBounded mid hi l₂)
    (hlm : lo ≤ mid) (hmh : mid ≤ hi) : SegBounded lo hi (l₁ ++ l₂) := by
  refine ⟨List.pairwise_append.mpr ⟨h₁.1, h₂.1, ?_⟩, ?_⟩
  · intro x hx y hy
    exact le_trans (h₁.2 x hx).2 (h₂.2 y hy).1
  · intro x hx
    rcases List.mem_append.mp hx with hm | hm
    · exact ⟨(h₁.2 x hm).1, le_trans (h₁.2 x hm).2 hmh⟩
    · exact ⟨le_trans hlm (h₂.2 x hm).1, (h₂.2 x hm).2⟩

theorem SegBounded.cons {lo hi : ℚ} (x : ℚ) {l : List ℚ}
    (hlx : lo ≤ x) (h : SegBounded x hi l) (hxh : x ≤ hi) :
    SegBounded lo hi (x :: l) :=
  (segBounded_single hlx (le_refl x)).append h hlx hxh

theorem SegBounded.widen {lo hi lo' hi' : ℚ} {l : List ℚ}
    (h : SegBounded lo hi l) (hlo : lo' ≤ lo) (hhi : hi ≤ hi') :
    SegBounded lo' hi' l :=
  ⟨h.1, fun x hx => ⟨le_trans hlo (h.2 x hx).1, le_trans (h.2 x hx).2 hhi⟩⟩

theorem segBounded_map (a c : ℚ) (hc : 0 ≤ c) (l : List ℚ)
    (hch : l.Chain' (· ≤ ·)) (hB : ∀ p ∈ l, 0 ≤ p ∧ p ≤ 100) :
    SegBounded a (a + 100 * c) (l.map fun p => a + p * c) := by
  constructor
  · exact (List.chain'_iff_pairwise.mp hch).map _
      (fun x y hxy => add_le_add_left (mul_le_mul_of_nonneg_right hxy hc) a)
  · intro x hx
    rcases List.mem_map.mp hx with ⟨p, hp, rfl⟩
    obtain ⟨h0p, h100p⟩ := hB p hp
    exact ⟨by nlinarith, by nlinarith⟩

theorem SegBounded.chainLe {lo hi : ℚ} {l : List ℚ} (h : SegBounded lo hi l) :
    l.Chain' (· ≤ ·) :=
  List.chain'_iff_pairwise.mpr h.1

/-- Monotone chains for each possible progress-write sequence shape, assembled
from the three stage bands. -/
theorem chain_bands {cm em km : List ℚ}
    (sc : SegBounded 20 40 cm) (se : SegBounded 50 70 em) (sk : SegBounded 70 95 km) :
    List.Chain' (· ≤ ·) (0 :: 10 :: 20 :: cm) ∧
    List.Chain' (· ≤ ·) (0 :: 10 :: 20 :: (cm ++ [40])) ∧
    List.Chain' (· ≤ ·) (0 :: 10 :: 20 :: (cm ++ 40 :: 50 :: em)) ∧
    List.Chain' (· ≤ ·) (0 :: 10 :: 20 :: (cm ++ 40 :: 50 :: (em ++ 70 :: km))) ∧
    List.Chain' (· ≤ ·) (0 :: 10 :: 20 :: (cm ++ 40 :: 50 :: (em ++ 70 :: (km ++ [100])))) := by
  have wrap : ∀ l : List ℚ, SegBounded 20 100 l → List.Chain' (· ≤ ·) (0 :: 10 :: 20 :: l) := by
    intro l h
    have s1 : SegBounded 10 100 (20 :: l) := SegBounded.cons 20 (by norm_num) h (by norm_num)
    have s2 : SegBounded 0 100 (10 :: 20 :: l) := SegBounded.cons 10 (by norm_num) s1 (by norm_num)
    have s3 : SegBounded 0 100 (0 :: 10 :: 20 :: l) := SegBounded.cons 0 (le_refl 0) s2 (by norm_num)
    exact s3.chainLe
  have tK : SegBounded 70 100 (70 :: km) :=
    SegBounded.cons 70 (le_refl 70) (sk.widen (le_refl 70) (by norm_num)) (by norm_num)
  have tF0 : SegBounded 70 100 (km ++ [100]) :=
    sk.append (segBounded_single (by norm_num) (le_refl 100)) (by norm_num) (by norm_num)
  have tF1 : SegBounded 70 100 (70 :: (km ++ [100])) :=
    SegBounded.cons 70 (le_refl 70) tF0 (by norm_num)
  have mid : ∀ t : List ℚ, SegBounded 70 100 t →
      SegBounded 20 100 (cm ++ 40 :: 50 :: (em ++ t)) := by
    intro t h
    have m1 : SegBounded 50 100 (em ++ t) := se.append h (by norm_num) (by norm_num)
    have m2 : SegBounded 40 100 (50 :: (em ++ t)) := SegBounded.cons 50 (by norm_num) m1 (by norm_num)
    have m3 : SegBounded 40 100 (40 :: 50 :: (em ++ t)) := SegBounded.cons 40 (le_refl 40) m2 (by norm_num)
    exact sc.append m3 (by norm_num) (by norm_num)
  have hE : SegBounded 20 100 (cm ++ 40 :: 50 :: em) := by
    have m1 : SegBounded 50 100 em := se.widen (le_refl 50) (by norm_num)
    have m2 : SegBounded 40 100 (50 :: em) := SegBounded.cons 50 (by norm_num) m1 (by norm_num)
    have m3 : SegBounded 40 100 (40 :: 50 :: em) := SegBounded.cons 40 (le_refl 40) m2 (by norm_num)
    exact sc.append m3 (by norm_num) (by norm_num)
  have hU : SegBounded 20 100 (cm ++ [40]) :=
    sc.append (segBounded_single (le_refl 40) (by norm_num)) (by norm_num) (by norm_num)
  exact ⟨wrap cm (sc.widen (le_refl 20) (by norm_num)),
    wrap _ hU, wrap _ hE, wrap _ (mid _ tK), wrap _ (mid _ tF1)⟩

set_option maxHeartbeats 1000000 in
/-- C2: under the hypothesis that each stage invokes its progress callback with
non-decreasing percentages in `[0, 100]`, the progress values a job observes —
`0` at creation followed by every progress value `processVideoAsync` writes —
form a monotonically non-decreasing sequence, and the run ends in a terminal
write: `completed` with progress `100`, or `failed`. -/
theorem progress_monotone (env : PipelineEnv)
    (hc : env.compressPcts.Chain' (· ≤ ·))
    (hcB : ∀ p ∈ env.compressPcts, 0 ≤ p ∧ p ≤ 100)
    (he : env.extractPcts.Chain' (· ≤ ·))
    (heB : ∀ p ∈ env.extractPcts, 0 ≤ p ∧ p ≤ 100)
    (hk : env.classifyPcts.Chain' (· ≤ ·))
    (hkB : ∀ p ∈ env.classifyPcts, 0 ≤ p ∧ p ≤ 100) :
    List.Chain' (· ≤ ·) (0 :: progressWrites env) ∧
    ∃ w, (processVideoAsync env).writes.getLast? = some w ∧
      ((w.status = "completed" ∧ w.progress = some 100) ∨ w.status = "failed") := by
  have sc := segBounded_map 20 (1/5) (by norm_num) env.compressPcts hc hcB
  have se := segBounded_map 50 (1/5) (by norm_num) env.extractPcts he heB
  have sk := segBounded_map 70 (1/4) (by norm_num) env.classifyPcts hk hkB
  norm_num at sc se sk
  obtain ⟨chainC, chainU, chainE, chainK, chainF⟩ := chain_bands sc se sk
  by_cases hv : env.videoFound = false
  · refine ⟨?_, failWrite "Video not found", ?_, Or.inr rfl⟩
    · have hw : (0 :: progressWrites env) = [0] := by
        simp [progressWrites, processVideoAsync, hv, progress_failWrite]
      rw [hw]
      exact List.chain'_singleton 0
    · have hwr : (processVideoAsync env).writes = [] ++ [failWrite "Video not found"] := by
        simp [processVideoAsync, hv]
      rw [hwr]
      exact getLast?_snoc _ _
  · have hv' : env.videoFound = true := by simpa using hv
    rcases hd : env.downloadRes with e | u
    · refine ⟨?_, failWrite e, ?_, Or.inr rfl⟩
      · have hw : (0 :: progressWrites env) = [0, 10] := by
          simp [progressWrites, processVideoAsync, hv', hd, progress_upd, progress_failWrite]
        rw [hw]
        norm_num
      · have hwr : (processVideoAsync env).writes
            = [upd "processing" 10] ++ [failWrite e] := by
          simp [processVideoAsync, hv', hd]
        rw [hwr]
        exact getLast?_snoc _ _
    · rcases hcm : env.compressRes with e | u2
      · refine ⟨?_, failWrite e, ?_, Or.inr rfl⟩
        · have hw : (0 :: progressWrites env)
              = 0 :: 10 :: 20 :: env.compressPcts.map (fun p => 20 + p * (1/5)) := by
            simp [progressWrites, processVideoAsync, hv', hd, hcm, progress_upd,
              progress_failWrite, filterMap_progress]
          rw [hw]
          exact chainC
        · have hwr : (processVideoAsync env).writes
              = ([upd "processing" 10, upd "compressing" 20]
                  ++ env.compressPcts.map (fun p => upd "compressing" (20 + p * (1/5))))
                ++ [failWrite e] := by
            simp [processVideoAsync, hv', hd, hcm]
          rw [hwr]
          exact getLast?_snoc _ _
      · rcases hu : env.uploadRes with e | u3
        · refine ⟨?_, failWrite e, ?_, Or.inr rfl⟩
          · have hw : (0 :: progressWrites env)
                = 0 :: 10 :: 20 :: (env.compressPcts.map (fun p => 20 + p * (1/5)) ++ [40]) := by
              simp [progressWrites, processVideoAsync, hv', hd, hcm, hu, progress_upd,
                progress_failWrite, filterMap_progress]
            rw [hw]
            exact chainU
          · have hwr : (processVideoAsync env).writes
                = ([upd "processing" 10, upd "compressing" 20]
                    ++ env.compressPcts.map (fun p => upd "compressing" (20 + p * (1/5)))
                    ++ [upd "uploading" 40])
                  ++ [failWrite e] := by
              simp [processVideoAsync, hv', hd, hcm, hu]
            rw [hwr]
            exact getLast?_snoc _ _
        · rcases hx : env.extractRes with e | fs
          · refine ⟨?_, failWrite e, ?_, Or.inr rfl⟩
            · have hw : (0 :: progressWrites env)
                  = 0 :: 10 :: 20 :: (env.compressPcts.map (fun p => 20 + p * (1/5))
                    ++ 40 :: 50 :: env.extractPcts.map (fun p => 50 + p * (1/5))) := by
                simp [progressWrites, processVideoAsync, hv', hd, hcm, hu, hx, progress_upd,
                  progress_failWrite, filterMap_progress]
              rw [hw]
              exact chainE
            · have hwr : (processVideoAsync env).writes
                  = ([upd "processing" 10, upd "compressing" 20]
                      ++ env.compressPcts.map (fun p => upd "compressing" (20 + p * (1/5)))
                      ++ [upd "uploading" 40, upd "analyzing" 50]
                      ++ env.extractPcts.map (fun p => upd "analyzing" (50 + p * (1/5))))
                    ++ [failWrite e] := by
                simp [processVideoAsync, hv', hd, hcm, hu, hx]
              rw [hwr]
              exact getLast?_snoc _ _
          · rcases hcl : env.classifyRes with e | results
            · refine ⟨?_, failWrite e, ?_, Or.inr rfl⟩
              · have hw : (0 :: progressWrites env)
                    = 0 :: 10 :: 20 :: (env.compressPcts.map (fun p => 20 + p * (1/5))
                      ++ 40 :: 50 :: (env.extractPcts.map (fun p => 50 + p * (1/5))
                        ++ 70 :: env.classifyPcts.map (fun p => 70 + p * (1/4)))) := by
                  simp [progressWrites, processVideoAsync, hv', hd, hcm, hu, hx, hcl,
                    progress_upd, progress_failWrite, filterMap_progress]
                rw [hw]
                exact chainK
              · have hwr : (processVideoAsync env).writes
                    = ([upd "processing" 10, upd "compressing" 20]
                        ++ env.compressPcts.map (fun p => upd "compressing" (20 + p * (1/5)))
                        ++ [upd "uploading" 40, upd "analyzing" 50]
                        ++ env.extractPcts.map (fun p => upd "analyzing" (50 + p * (1/5)))
                        ++ [upd "analyzing" 70]
                        ++ env.classifyPcts.map (fun p => upd "analyzing" (70 + p * (1/4))))
                      ++ [failWrite e] := by
                  simp [processVideoAsync, hv', hd, hcm, hu, hx, hcl]
                rw [hwr]
                exact getLast?_snoc _ _
            · by_cases hemp : results.isEmpty = true
              · refine ⟨?_, upd "completed" 100, ?_, Or.inl ⟨rfl, rfl⟩⟩
                · have hw : (0 :: progressWrites env)
                      = 0 :: 10 :: 20 :: (env.compressPcts.map (fun p => 20 + p * (1/5))
                        ++ 40 :: 50 :: (env.extractPcts.map (fun p => 50 + p * (1/5))
                          ++ 70 :: (env.classifyPcts.map (fun p => 70 + p * (1/4)) ++ [100]))) := by
                    simp [progressWrites, processVideoAsync, hv', hd, hcm, hu, hx, hcl, hemp,
                      progress_upd, progress_failWrite, filterMap_progress]
                  rw [hw]
                  exact chainF
                · have hwr : (processVideoAsync env).writes
                      = ([upd "processing" 10, upd "compressing" 20]
                          ++ env.compressPcts.map (fun p => upd "compressing" (20 + p * (1/5)))
                          ++ [upd "uploading" 40, upd "analyzing" 50]
                          ++ env.extractPcts.map (fun p => upd "analyzing" (50 + p * (1/5)))
                          ++ [upd "analyzing" 70]
                          ++ env.classifyPcts.map (fun p => upd "analyzing" (70 + p * (1/4))))
                        ++ [upd "completed" 100] := by
                    simp [processVideoAsync, hv', hd, hcm, hu, hx, hcl, hemp]
                  rw [hwr]
                  exact getLast?_snoc _ _
              · have hemp' : results.isEmpty = false := by simpa using hemp
                rcases hins : env.insertRes with e | u4
                · refine ⟨?_, failWrite e, ?_, Or.inr rfl⟩
                  · have hw : (0 :: progressWrites env)
                        = 0 :: 10 :: 20 :: (env.compressPcts.map (fun p => 20 + p * (1/5))
                          ++ 40 :: 50 :: (env.extractPcts.map (fun p => 50 + p * (1/5))
                            ++ 70 :: env.classifyPcts.map (fun p => 70 + p * (1/4)))) := by
                      simp [progressWrites, processVideoAsync, hv', hd, hcm, hu, hx, hcl,
                        hemp', hins, progress_upd, progress_failWrite, filterMap_progress]
                    rw [hw]
                    exact chainK
                  · have hwr : (processVideoAsync env).writes
                        = ([upd "processing" 10, upd "compressing" 20]
                            ++ env.compressPcts.map (fun p => upd "compressing" (20 + p * (1/5)))
                            ++ [upd "uploading" 40, upd "analyzing" 50]
                            ++ env.extractPcts.map (fun p => upd "analyzing" (50 + p * (1/5)))
                            ++ [upd "analyzing" 70]
                            ++ env.classifyPcts.map (fun p => upd "analyzing" (70 + p * (1/4))))
                          ++ [failWrite e] := by
                      simp [processVideoAsync, hv', hd, hcm, hu, hx, hcl, hemp', hins]
                    rw [hwr]
                    exact getLast?_snoc _ _
                · refine ⟨?_, upd "completed" 100, ?_, Or.inl ⟨rfl, rfl⟩⟩
                  · have hw : (0 :: progressWrites env)
                        = 0 :: 10 :: 20 :: (env.compressPcts.map (fun p => 20 + p * (1/5))
                          ++ 40 :: 50 :: (env.extractPcts.map (fun p => 50 + p * (1/5))
                            ++ 70 :: (env.classifyPcts.map (fun p => 70 + p * (1/4)) ++ [100]))) := by
                      simp [progressWrites, processVideoAsync, hv', hd, hcm, hu, hx, hcl,
                        hemp', hins, progress_upd, progress_failWrite, filterMap_progress]
                    rw [hw]
                    exact chainF
                  · have hwr : (processVideoAsync env).writes
                        = ([upd "processing" 10, upd "compressing" 20]
                            ++ env.compressPcts.map (fun p => upd "compressing" (20 + p * (1/5)))
                            ++ [upd "uploading" 40, upd "analyzing" 50]
                            ++ env.extractPcts.map (fun p => upd "analyzing" (50 + p * (1/5)))
                            ++ [upd "analyzing" 70]
                            ++ env.classifyPcts.map (fun p => upd "analyzing" (70 + p * (1/4))))
                          ++ [upd "completed" 100] := by
                      simp [processVideoAsync, hv', hd, hcm, hu, hx, hcl, hemp', hins]
                    rw [hwr]
                    exact getLast?_snoc _ _

theorem progress_monotone_witness :
    envOkW.compressPcts.Chain' (· ≤ ·) ∧
    (List.Chain' (· ≤ ·) (0 :: progressWrites envOkW) ∧
      ∃ w, (processVideoAsync envOkW).writes.getLast? = some w ∧
        ((w.status = "completed" ∧ w.progress = some 100) ∨ w.status = "failed")) :=
  ⟨by simp [envOkW, List.chain'_cons]; norm_num,
   progress_monotone envOkW
     (by simp [envOkW, List.chain'_cons]; norm_num)
     (by intro p hp; simp [envOkW] at hp; rcases hp with rfl | rfl | rfl <;> norm_num)
     (by simp [envOkW, List.chain'_cons]; norm_num)
     (by intro p hp; simp [envOkW] at hp; rcases hp with rfl | rfl <;> norm_num)
     (by simp [envOkW, List.chain'_cons])
     (by intro p hp; simp [envOkW] at hp; rcases hp with rfl; norm_num)⟩

end VideoSentiment
